import Mathlib

/-!
Verification of the `mnet32` embedded networking component
(`src/lib/embedded_networking_esp32`): a shallow embedding of the state
record (`mnet32_state.c`), the WiFi lifecycle operations (`mnet32_wifi.c`),
the controller task dispatch (`mnet32.c`) and the credential web form
(`mnet32_web.c`), together with theorems about the retry bound, the state
invariants, the timer callback, the stop path and the form decoding.

External ESP-IDF and FreeRTOS calls (netif creation, `esp_wifi_*`,
event-handler registration, timer creation, NVS access, socket receive)
are modelled by explicit environment records holding the result each call
returns; the embedded functions consume those results exactly where the C
code checks the corresponding return values.
-/

set_option autoImplicit false

namespace Mnet32

/-- ESP-IDF generic success return value (`esp_err.h`). -/
def ESP_OK : Int := 0

/-- ESP-IDF generic failure return value (`esp_err.h`). -/
def ESP_FAIL : Int := -1

/-- Configuration constant from `include/mnet32/mnet32.h`: AP channel. -/
def MNET32_WIFI_AP_CHANNEL : Nat := 5

/-- Configuration constant from `include/mnet32/mnet32.h`: maximum number
of simultaneous AP clients. -/
def MNET32_WIFI_AP_MAX_CONNS : Nat := 3

/-- Configuration constant from `include/mnet32/mnet32.h`: the PSK of the
self-hosted access point. -/
def MNET32_WIFI_AP_PSK : String := "foobar"

/-- Configuration constant from `include/mnet32/mnet32.h`: the SSID of the
self-hosted access point. -/
def MNET32_WIFI_AP_SSID : String := "krachkiste_ap"

/-- Configuration constant from `include/mnet32/mnet32.h`: maximum number
of station connection attempts before the AP fallback. -/
def MNET32_WIFI_STA_MAX_CONNECTION_ATTEMPTS : Int := 3

/-- NVS key for the stored SSID (`mnet32_wifi.h`). -/
def MNET32_WIFI_NVS_SSID : String := "net_ssid"

/-- NVS key for the stored PSK (`mnet32_wifi.h`). -/
def MNET32_WIFI_NVS_PSK : String := "net_psk"

/-- Notification codes accepted by the controller task
(`mnet32_task_notification` in `mnet32_internal.h`). -/
inductive Notification where
  | base
  | cmdNetworkingStop
  | cmdWifiStart
  | cmdWifiRestart
  | eventWifiApStart
  | eventWifiApStaconnected
  | eventWifiApStadisconnected
  | eventWifiStaStart
  | eventWifiStaConnected
  | eventWifiStaDisconnected
deriving DecidableEq, Repr

/-- Connection medium (`mnet32_medium` in `mnet32_state.c`). -/
inductive Medium where
  | unspecified
  | ethernet
  | wireless
deriving DecidableEq, Repr

/-- Connection mode (`mnet32_mode` in `mnet32_state.c`). -/
inductive Mode where
  | notApplicable
  | wifiAp
  | wifiSta
deriving DecidableEq, Repr

/-- Connection status (`mnet32_status` in `mnet32_state.c`). -/
inductive Status where
  | down
  | ready
  | connecting
  | idle
  | busy
deriving DecidableEq, Repr

/-- Mode-specific extension payload stored behind the untyped
`state->medium_state` pointer: `struct medium_state_wifi_ap` holds the
shutdown timer handle, `struct medium_state_wifi_sta` holds the connection
attempt counter (`mnet32_wifi.c`). The C code casts the pointer according
to the current mode; the embedding keeps the variant explicit. -/
inductive MediumState where
  | ap (ap_shutdown_timer : Option Nat)
  | sta (num_connection_attempts : Int)
deriving DecidableEq, Repr

/-- The state record `struct mnet32_state` (`mnet32_state.c`). Pointer
fields (`esp_netif_t*`, `TaskHandle_t`, event-handler instances) are
modelled as `Option Nat`: `none` is the NULL pointer. -/
structure Mnet32State where
  medium : Medium
  mode : Mode
  status : Status
  interface : Option Nat
  task : Option Nat
  ip_event_handler : Option Nat
  medium_event_handler : Option Nat
  medium_state : Option MediumState
deriving DecidableEq, Repr

/-- State produced by `mnet32_state_init`: `calloc` zeroes the record, so
every enum holds its first value and every pointer is NULL. -/
def mnet32_state_init : Mnet32State :=
  { medium := .unspecified
    mode := .notApplicable
    status := .down
    interface := none
    task := none
    ip_event_handler := none
    medium_event_handler := none
    medium_state := none }

/-- Translation of `mnet32_state_is_mode_set`. -/
def mnet32_state_is_mode_set (s : Mnet32State) : Bool :=
  decide (s.mode ≠ Mode.notApplicable)

/-- Translation of `mnet32_state_is_mode_ap`. -/
def mnet32_state_is_mode_ap (s : Mnet32State) : Bool :=
  decide (s.mode = Mode.wifiAp)

/-- Translation of `mnet32_state_is_mode_sta`. -/
def mnet32_state_is_mode_sta (s : Mnet32State) : Bool :=
  decide (s.mode = Mode.wifiSta)

/-- Translation of `mnet32_state_is_medium_wireless`. -/
def mnet32_state_is_medium_wireless (s : Mnet32State) : Bool :=
  decide (s.medium = Medium.wireless)

/-- Translation of `mnet32_state_is_status_idle`. -/
def mnet32_state_is_status_idle (s : Mnet32State) : Bool :=
  decide (s.status = Status.idle)

/-- Translation of `mnet32_state_is_interface_set`. -/
def mnet32_state_is_interface_set (s : Mnet32State) : Bool :=
  s.interface.isSome

/-- Translation of `mnet32_state_is_medium_state_initialized`. -/
def mnet32_state_is_medium_state_initd (s : Mnet32State) : Bool :=
  s.medium_state.isSome

/-- Translation of `mnet32_state_set_status_idle`. -/
def mnet32_state_set_status_idle (s : Mnet32State) : Mnet32State :=
  { s with status := .idle }

/-- Translation of `mnet32_state_set_status_busy`. -/
def mnet32_state_set_status_busy (s : Mnet32State) : Mnet32State :=
  { s with status := .busy }

/-- Translation of `mnet32_state_set_status_connecting`. -/
def mnet32_state_set_status_connecting (s : Mnet32State) : Mnet32State :=
  { s with status := .connecting }

/-- Translation of `mnet32_state_set_status_ready`. -/
def mnet32_state_set_status_ready (s : Mnet32State) : Mnet32State :=
  { s with status := .ready }

end Mnet32

namespace Mnet32

/-- Translation of the C library predicate `isxdigit` as used by
`mnet32_web_get_value` (`mnet32_web.c`): ASCII hexadecimal digit. -/
def isxdigit (c : Char) : Bool :=
  c.isDigit || (97 ≤ c.toNat && c.toNat ≤ 102) || (65 ≤ c.toNat && c.toNat ≤ 70)

/-- Numeric value of one hexadecimal digit, as computed by
`strtol(estr, NULL, 16)` on the two-character buffer in
`mnet32_web_get_value`. -/
def hexDigitVal (c : Char) : Nat :=
  if c.isDigit then c.toNat - 48
  else if 97 ≤ c.toNat then c.toNat - 97 + 10
  else c.toNat - 65 + 10

/-- Translation of the in-place percent-decoding loop of
`mnet32_web_get_value` (`mnet32_web.c`, step 4). At a `%` followed by two
hexadecimal digits the converted byte replaces the three characters and
scanning resumes after it (the C code advances `i` past the converted
character after the `memmove`). At a `%` not followed by two hexadecimal
digits the condition fails and the loop merely advances, leaving the `%`
literal. -/
def urldecode : List Char → List Char
  | [] => []
  | '%' :: c1 :: c2 :: rest =>
    if isxdigit c1 && isxdigit c2 then
      Char.ofNat (16 * hexDigitVal c1 + hexDigitVal c2) :: urldecode rest
    else
      '%' :: urldecode (c1 :: c2 :: rest)
  | c :: rest => c :: urldecode rest

/-- Index of the first occurrence of `needle` in `hay`, the behaviour of
the C library function `strstr` used by `mnet32_web_get_value`. -/
def strstrIdx : List Char → List Char → Option Nat
  | hay, needle =>
    if needle.isPrefixOf hay then some 0
    else
      match hay with
      | [] => none
      | _ :: t => (strstrIdx t needle).map (· + 1)

/-- Translation of `mnet32_web_get_value` (`mnet32_web.c`): locate `key`
in the raw POST body, skip the key and the following character (the `=`),
take characters up to the next `&` (or the end of the body), and
percent-decode the result. `none` models the `ESP_FAIL` return when the
key is not found; `some v` models `ESP_OK` with `v` copied to the output
buffer. -/
def mnet32_web_get_value (key raw : String) : Option String :=
  match strstrIdx raw.toList key.toList with
  | none => none
  | some i =>
    let value_begin := raw.toList.drop (i + key.length + 1)
    let esc_value := value_begin.takeWhile (fun c => c != '&')
    some (String.mk (urldecode esc_value))

/-- WiFi authentication modes relevant to the component
(`esp_wifi_types.h`). -/
inductive Authmode where
  | authOpen
  | wpaWpa2Psk
deriving DecidableEq, Repr

/-- The fields of `wifi_config_t.ap` that `mnet32_wifi_ap_init` assigns
(`mnet32_wifi.c`, lines 295 to 319). -/
structure WifiApConfig where
  ssid : String
  ssid_len : Nat
  channel : Nat
  password : String
  max_connection : Nat
  authmode : Authmode
deriving DecidableEq, Repr

/-- Translation of the access-point configuration built inside
`mnet32_wifi_ap_init` (`mnet32_wifi.c`, lines 295 to 319), parameterized
over the configured PSK macro `MNET32_WIFI_AP_PSK`. The C code first
fills the record with WPA/WPA2 authentication and the configured PSK and
then, when `strlen(MNET32_WIFI_AP_PSK) <= 8`, switches `authmode` to
`WIFI_AUTH_OPEN` and zeroes the password. -/
def wifi_ap_build_config (psk : String) : WifiApConfig :=
  let ap_config : WifiApConfig :=
    { ssid := MNET32_WIFI_AP_SSID
      ssid_len := MNET32_WIFI_AP_SSID.length
      channel := MNET32_WIFI_AP_CHANNEL
      password := psk
      max_connection := MNET32_WIFI_AP_MAX_CONNS
      authmode := .wpaWpa2Psk }
  if psk.length ≤ 8 then
    { ap_config with authmode := .authOpen, password := "" }
  else
    ap_config

end Mnet32

namespace Mnet32

/-- Results of the external ESP-IDF / FreeRTOS calls performed by
`mnet32_wifi_ap_init`: the netif handle returned by
`esp_netif_create_default_wifi_ap` (NULL on failure), the handle returned
by `xTimerCreate` (unchecked by the C code), and the `esp_err_t` values of
`esp_wifi_set_mode`, `esp_wifi_set_config` and `esp_wifi_start`. -/
structure ApInitEnv where
  netif_create : Option Nat
  timer_create : Option Nat
  set_mode_ret : Int
  set_config_ret : Int
  start_ret : Int
deriving DecidableEq, Repr

/-- Results of the external calls performed by `wifi_sta_init`
(`esp_netif_create_default_wifi_sta`, `esp_wifi_set_mode`,
`esp_wifi_set_config`, `esp_wifi_start`). -/
structure StaInitEnv where
  netif_create : Option Nat
  set_mode_ret : Int
  set_config_ret : Int
  start_ret : Int
deriving DecidableEq, Repr

/-- Translation of `mnet32_wifi_ap_init` (`mnet32_wifi.c`, lines 268 to
358): store the created netif (checking it afterwards), allocate the
mode-specific extension and store the created timer handle in it, then
apply mode, configuration and start, setting `state->mode` to AP only
after `esp_wifi_set_mode` succeeded. Each failing external call makes the
function return that result immediately, leaving the mutations already
performed in place. -/
def mnet32_wifi_ap_init (env : ApInitEnv) (s : Mnet32State) : Int × Mnet32State :=
  let s1 := { s with interface := env.netif_create }
  if ¬ mnet32_state_is_interface_set s1 then (ESP_FAIL, s1)
  else
    let s2 := { s1 with medium_state := some (.ap env.timer_create) }
    if env.set_mode_ret ≠ ESP_OK then (env.set_mode_ret, s2)
    else
      let s3 := { s2 with mode := .wifiAp }
      if env.set_config_ret ≠ ESP_OK then (env.set_config_ret, s3)
      else if env.start_ret ≠ ESP_OK then (env.start_ret, s3)
      else (ESP_OK, s3)

/-- Translation of `wifi_ap_deinit` (`mnet32_wifi.c`, lines 376 to 405):
failures of `esp_wifi_stop` are only logged; the netif is destroyed and
cleared, the mode-specific extension freed when present, and the mode
reset. Always returns `ESP_OK`. -/
def wifi_ap_deinit (s : Mnet32State) : Int × Mnet32State :=
  let s1 := { s with interface := none }
  let s2 := if mnet32_state_is_medium_state_initd s1 then
              { s1 with medium_state := none }
            else s1
  (ESP_OK, { s2 with mode := .notApplicable })

/-- Translation of `wifi_sta_init` (`mnet32_wifi.c`, lines 552 to 627):
same shape as `mnet32_wifi_ap_init`, with the extension allocated as a
zeroed attempt counter (`calloc` plus
`mnet32_wifi_sta_reset_connection_counter`) and the mode set to station
after `esp_wifi_set_mode` succeeded. -/
def wifi_sta_init (env : StaInitEnv) (s : Mnet32State) : Int × Mnet32State :=
  let s1 := { s with interface := env.netif_create }
  if ¬ mnet32_state_is_interface_set s1 then (ESP_FAIL, s1)
  else
    let s2 := { s1 with medium_state := some (.sta 0) }
    if env.set_mode_ret ≠ ESP_OK then (env.set_mode_ret, s2)
    else
      let s3 := { s2 with mode := .wifiSta }
      if env.set_config_ret ≠ ESP_OK then (env.set_config_ret, s3)
      else if env.start_ret ≠ ESP_OK then (env.start_ret, s3)
      else (ESP_OK, s3)

/-- Translation of `mnet32_wifi_sta_deinit` (`mnet32_wifi.c`, lines 629
to 658): identical state effects to `wifi_ap_deinit`. -/
def mnet32_wifi_sta_deinit (s : Mnet32State) : Int × Mnet32State :=
  let s1 := { s with interface := none }
  let s2 := if mnet32_state_is_medium_state_initd s1 then
              { s1 with medium_state := none }
            else s1
  (ESP_OK, { s2 with mode := .notApplicable })

/-- Translation of `mnet32_wifi_sta_get_num_connection_attempts`
(`mnet32_wifi.c`, line 676): the C code casts `state->medium_state` to
`struct medium_state_wifi_sta*` and dereferences it unconditionally.
`none` models the undefined behaviour when the pointer is NULL or holds
the access-point payload. -/
def mnet32_wifi_sta_get_num_connection_attempts (s : Mnet32State) : Option Int :=
  match s.medium_state with
  | some (.sta n) => some n
  | _ => none

/-- Translation of `mnet32_wifi_sta_connect` (`mnet32_wifi.c`, lines 660
to 674): increment the attempt counter first, then call
`esp_wifi_connect`, whose failure is only logged. `none` models the
undefined dereference when the extension is absent or of the wrong
variant. -/
def mnet32_wifi_sta_connect (s : Mnet32State) : Option Mnet32State :=
  match s.medium_state with
  | some (.sta n) => some { s with medium_state := some (.sta (n + 1)) }
  | _ => none

/-- Translation of `mnet32_wifi_sta_reset_connection_counter`
(`mnet32_wifi.c`, lines 680 to 682). -/
def mnet32_wifi_sta_reset_connection_counter (s : Mnet32State) : Option Mnet32State :=
  match s.medium_state with
  | some (.sta _) => some { s with medium_state := some (.sta 0) }
  | _ => none

/-- Translation of `mnet32_wifi_deinit` (`mnet32_wifi.c`, lines 230 to
266): unregistering the event handler and `esp_wifi_deinit` only log
failures; the mode-specific deinit runs according to the current mode and
the medium is cleared. Always returns `ESP_OK`. -/
def mnet32_wifi_deinit (s : Mnet32State) : Int × Mnet32State :=
  let s1 := if mnet32_state_is_mode_ap s then (wifi_ap_deinit s).2 else s
  let s2 := if mnet32_state_is_mode_sta s1 then (mnet32_wifi_sta_deinit s1).2 else s1
  (ESP_OK, { s2 with medium := .unspecified })

/-- Translation of `wifi_get_config_from_nvs` (`mnet32_wifi.c`, lines 495
to 533). The whole body of the C function is commented out (marked
`FIXME(mischback) Restore implementation once the station mode is
working!`); the function unconditionally returns `ESP_FAIL` without
reading the store or touching the output buffers, whatever credentials
the non-volatile storage holds. -/
def wifi_get_config_from_nvs (nvs_store : Option (String × String)) : Int :=
  ESP_FAIL

/-- Results of the external calls performed by `wifi_init`
(`esp_wifi_init`, `esp_event_handler_instance_register` together with the
instance token it writes back on success) plus the credentials currently
stored in the NVS namespace and the environments of the two mode-specific
initializers. -/
structure WifiInitEnv where
  esp_wifi_init_ret : Int
  evt_register_ret : Int
  evt_register_instance : Nat
  nvs_store : Option (String × String)
  sta_env : StaInitEnv
  ap_env : ApInitEnv
deriving DecidableEq, Repr

/-- Translation of `wifi_init` (`mnet32_wifi.c`, lines 150 to 228): an
already-set mode returns `ESP_OK` immediately; otherwise the WiFi stack
is initialized, the medium set to wireless, the event handler registered,
and the NVS credentials read. A failing read starts the access point
directly; a successful read attempts station mode, falling back to
station deinit plus access-point init when that attempt fails. -/
def wifi_init (env : WifiInitEnv) (s : Mnet32State) : Int × Mnet32State :=
  if mnet32_state_is_mode_set s then (ESP_OK, s)
  else if env.esp_wifi_init_ret ≠ ESP_OK then (env.esp_wifi_init_ret, s)
  else
    let s1 := { s with medium := .wireless }
    if env.evt_register_ret ≠ ESP_OK then (env.evt_register_ret, s1)
    else
      let s2 := { s1 with medium_event_handler := some env.evt_register_instance }
      if wifi_get_config_from_nvs env.nvs_store ≠ ESP_OK then
        mnet32_wifi_ap_init env.ap_env s2
      else
        match wifi_sta_init env.sta_env s2 with
        | (sta_ret, s3) =>
          if sta_ret ≠ ESP_OK then
            mnet32_wifi_ap_init env.ap_env (mnet32_wifi_sta_deinit s3).2
          else (ESP_OK, s3)

/-- Translation of `mnet32_wifi_start` (`mnet32_wifi.c`, lines 684 to
693): run `wifi_init` and tear everything down again via
`mnet32_wifi_deinit` when it failed. -/
def mnet32_wifi_start (env : WifiInitEnv) (s : Mnet32State) : Int × Mnet32State :=
  match wifi_init env s with
  | (ret, s1) =>
    if ret ≠ ESP_OK then (ESP_FAIL, (mnet32_wifi_deinit s1).2)
    else (ESP_OK, s1)

end Mnet32

namespace Mnet32

/-- Translation of `mnet32_wifi_ap_get_connected_stations`
(`mnet32_wifi.c`, lines 421 to 433). The argument models the result of
`esp_wifi_ap_get_sta_list`: `none` when the call fails (the C function
then returns `-1`), `some n` when it succeeds with `tmp.num = n`
connected stations. -/
def mnet32_wifi_ap_get_connected_stations (sta_list : Option Nat) : Int :=
  match sta_list with
  | none => -1
  | some n => n

/-- Translation of the `MNET32_NOTIFICATION_EVENT_WIFI_AP_STADISCONNECTED`
case of `mnet32_task` (`mnet32.c`, lines 235 to 248): when the number of
connected stations is exactly `0`, set the status to idle and restart the
shutdown timer (the returned flag records that
`mnet32_wifi_ap_timer_start` was called); otherwise leave the state alone
and do not touch the timer. -/
def mnet32_task_ap_stadisconnected (sta_list : Option Nat) (s : Mnet32State) :
    Mnet32State × Bool :=
  if mnet32_wifi_ap_get_connected_stations sta_list = 0 then
    (mnet32_state_set_status_idle s, true)
  else
    (s, false)

/-- Outcome of processing one `STA_DISCONNECTED` notification
(`mnet32.c`, lines 263 to 278): the updated state, whether
`mnet32_wifi_sta_connect` was called, whether the fallback (station
deinit plus access-point init) was taken, and whether a failing fallback
self-notified `NETWORKING_STOP`. -/
structure StaDisconnectedOutcome where
  state : Mnet32State
  connect_called : Bool
  fell_back : Bool
  stop_notified : Bool
deriving DecidableEq, Repr

/-- Translation of the `MNET32_NOTIFICATION_EVENT_WIFI_STA_DISCONNECTED`
case of `mnet32_task` (`mnet32.c`, lines 263 to 278): when the attempt
counter exceeds `MNET32_WIFI_STA_MAX_CONNECTION_ATTEMPTS` the station is
deinitialized and the access point initialized (notifying
`NETWORKING_STOP` when that in turn fails); otherwise a reconnect is
issued via `mnet32_wifi_sta_connect`, which increments the counter.
`none` models the undefined dereference of the attempt counter when the
mode-specific extension is absent or of the access-point variant. -/
def mnet32_task_sta_disconnected (env : ApInitEnv) (s : Mnet32State) :
    Option StaDisconnectedOutcome :=
  match mnet32_wifi_sta_get_num_connection_attempts s with
  | none => none
  | some n =>
    if n > MNET32_WIFI_STA_MAX_CONNECTION_ATTEMPTS then
      match mnet32_wifi_ap_init env (mnet32_wifi_sta_deinit s).2 with
      | (ap_ret, s2) => some ⟨s2, false, true, ap_ret ≠ ESP_OK⟩
    else
      match mnet32_wifi_sta_connect s with
      | none => none
      | some s1 => some ⟨s1, true, false, false⟩

/-- Verification harness for the retry bound: feed `k` consecutive
`STA_DISCONNECTED` notifications to the controller case, accumulating the
number of `mnet32_wifi_sta_connect` calls issued before the fallback and
whether the fallback was taken. Once the fallback has run, station mode
is gone, so the run stops counting (the claim only concerns connect calls
issued before the controller switches to access-point mode). -/
def staDisconnectRun (env : ApInitEnv) : Nat → Mnet32State →
    Option (Mnet32State × Nat × Bool)
  | 0, s => some (s, 0, false)
  | k + 1, s =>
    match mnet32_task_sta_disconnected env s with
    | none => none
    | some o =>
      if o.fell_back then some (o.state, 0, true)
      else
        match staDisconnectRun env k o.state with
        | none => none
        | some (s2, c, fb) =>
          some (s2, (if o.connect_called then 1 else 0) + c, fb)

/-- Actions performed by the timer callback `wifi_ap_timed_shutdown`
(`mnet32_wifi.c`, lines 407 to 419): whether `xTimerStop` and
`xTimerDelete` were invoked on the expired timer, the notification sent
to the controller (via `mnet32_stop`), and whether the callback re-armed
the timer (there is no `xTimerStart` call in the function, so this is
always `false`). -/
structure TimerCallbackActions where
  timer_stopped : Bool
  timer_deleted : Bool
  notified : Option Notification
  timer_restarted : Bool
deriving DecidableEq, Repr

/-- Translation of `wifi_ap_timed_shutdown` (`mnet32_wifi.c`, lines 407
to 419): when the status is not idle the callback logs a warning and
returns without any action; otherwise it stops and deletes the timer and
issues the `NETWORKING_STOP` command through `mnet32_stop`. -/
def wifi_ap_timed_shutdown (s : Mnet32State) : TimerCallbackActions :=
  if ¬ mnet32_state_is_status_idle s then
    { timer_stopped := false
      timer_deleted := false
      notified := none
      timer_restarted := false }
  else
    { timer_stopped := true
      timer_deleted := true
      notified := some .cmdNetworkingStop
      timer_restarted := false }

/-- Translation of `mnet32_state_get_task_handle` (`mnet32_state.c`,
lines 192 to 194) over the nullable global `state` pointer: the C code
reads `state->task` without checking `state`, so the outer `none` models
the NULL-pointer dereference (a crash) when the component is not
initialized. -/
def mnet32_state_get_task_handle (g : Option Mnet32State) : Option (Option Nat) :=
  g.map (fun st => st.task)

/-- Translation of `mnet32_notify` (`mnet32.c`, lines 658 to 665):
`xTaskNotifyIndexed` targeting the handle returned by
`mnet32_state_get_task_handle` with overwrite semantics. The result is
the delivered notification, or `none` when fetching the task handle
dereferenced the NULL state record. -/
def mnet32_notify (g : Option Mnet32State) (n : Notification) : Option Notification :=
  (mnet32_state_get_task_handle g).map (fun _ => n)

/-- Translation of `mnet32_stop` (`mnet32.c`, lines 678 to 684): notify
`MNET32_NOTIFICATION_CMD_NETWORKING_STOP` and return `ESP_OK`
unconditionally. `none` propagates the NULL-state dereference inside
`mnet32_notify` when the component is not initialized: the function never
reaches its return statement in that case. -/
def mnet32_stop (g : Option Mnet32State) : Option (Int × Notification) :=
  (mnet32_notify g .cmdNetworkingStop).map (fun n => (ESP_OK, n))

/-- Translation of `mnet32_deinit` (`mnet32.c`, lines 559 to 607) over
the nullable global state: without state information it logs and returns
`ESP_FAIL`, touching nothing; otherwise the WiFi teardown, event-handler
unregistration and task deletion run, the state record is freed
(`mnet32_state_destroy` sets the global pointer to NULL) and `ESP_OK` is
returned. -/
def mnet32_deinit (g : Option Mnet32State) : Int × Option Mnet32State :=
  match g with
  | none => (ESP_FAIL, none)
  | some _ => (ESP_OK, none)

end Mnet32

namespace Mnet32

/-- Outcome of the body-receive loop of `mnet32_web_handler_config_post`
(`mnet32_web.c`, lines 241 to 252): either the whole `Content-Length`
body was received, or `httpd_req_recv` reported a socket timeout
(`HTTPD_SOCK_ERR_TIMEOUT`), or it reported some other error. -/
inductive RecvOutcome where
  | ok (body : String)
  | timeout
  | sockErr
deriving DecidableEq, Repr

/-- Results of the external calls performed while handling a POST to the
configuration URI: the receive outcome and the `esp_err_t` results of
`mnet32_nvs_get_handle`, `mnet32_nvs_write_string` for the SSID and
`mnet32_nvs_write_string` for the PSK. -/
structure PostEnv where
  recv : RecvOutcome
  nvs_handle_ret : Int
  write_ssid_ret : Int
  write_psk_ret : Int
deriving DecidableEq, Repr

/-- Observable actions of `mnet32_web_handler_config_post`: its return
value, the status line set via `httpd_resp_set_status` (when any), the
response body passed to `httpd_resp_send` (when any), whether
`httpd_resp_send_408` ran, the notification issued to the controller, and
the key/value pairs successfully written to the NVS. -/
structure PostResult where
  ret : Int
  response_status : Option String
  response_body : Option String
  sent_408 : Bool
  notified : Option Notification
  nvs_writes : List (String × String)
deriving DecidableEq, Repr

/-- Translation of `mnet32_web_write_config_to_nvs` (`mnet32_web.c`,
lines 295 to 313): open the NVS handle, then write the SSID under
`net_ssid` and the PSK under `net_psk`, returning the first failing
result. The returned list records the writes that succeeded. -/
def mnet32_web_write_config_to_nvs (env : PostEnv) (ssid psk : String) :
    Int × List (String × String) :=
  if env.nvs_handle_ret ≠ ESP_OK then (env.nvs_handle_ret, [])
  else if env.write_ssid_ret ≠ ESP_OK then (env.write_ssid_ret, [])
  else if env.write_psk_ret ≠ ESP_OK then
    (env.write_psk_ret, [(MNET32_WIFI_NVS_SSID, ssid)])
  else
    (ESP_OK, [(MNET32_WIFI_NVS_SSID, ssid), (MNET32_WIFI_NVS_PSK, psk)])

/-- Translation of `mnet32_web_handler_config_post` (`mnet32_web.c`,
lines 234 to 285): a receive timeout answers 408 and aborts with
`ESP_FAIL` (other receive errors abort silently); a fully received body
is parsed with `mnet32_web_get_value` for `ssid` and `psk` (a missing key
leaves the zeroed buffer, i.e. the empty string); a failing store write
answers `500 Internal Server Error` with a plain-text body and issues no
notification; otherwise `WIFI_RESTART` is notified and the status line
`204 No Response` is set with an empty body. -/
def mnet32_web_handler_config_post (env : PostEnv) : PostResult :=
  match env.recv with
  | .timeout =>
    { ret := ESP_FAIL, response_status := none, response_body := none
      sent_408 := true, notified := none, nvs_writes := [] }
  | .sockErr =>
    { ret := ESP_FAIL, response_status := none, response_body := none
      sent_408 := false, notified := none, nvs_writes := [] }
  | .ok body =>
    let ssid := (mnet32_web_get_value "ssid" body).getD ""
    let psk := (mnet32_web_get_value "psk" body).getD ""
    let write := mnet32_web_write_config_to_nvs env ssid psk
    if write.1 ≠ ESP_OK then
      { ret := ESP_OK
        response_status := some "500 Internal Server Error"
        response_body := some "Could not write to storage"
        sent_408 := false, notified := none, nvs_writes := write.2 }
    else
      { ret := ESP_OK
        response_status := some "204 No Response"
        response_body := some ""
        sent_408 := false, notified := some .cmdWifiRestart
        nvs_writes := write.2 }

/-- One init or deinit operation on the connection state, with the
results of its external calls (`mnet32_wifi.c`). -/
inductive WifiOp where
  | apInit (env : ApInitEnv)
  | apDeinit
  | staInit (env : StaInitEnv)
  | staDeinit
deriving DecidableEq, Repr

/-- State effect of one operation (the returned `esp_err_t` is dropped,
matching call sites that ignore or only propagate it). -/
def applyWifiOp : WifiOp → Mnet32State → Mnet32State
  | .apInit env, s => (mnet32_wifi_ap_init env s).2
  | .apDeinit, s => (wifi_ap_deinit s).2
  | .staInit env, s => (wifi_sta_init env s).2
  | .staDeinit, s => (mnet32_wifi_sta_deinit s).2

/-- Run a sequence of init/deinit operations from a given state. -/
def runWifiOps : List WifiOp → Mnet32State → Mnet32State
  | [], s => s
  | op :: rest, s => runWifiOps rest (applyWifiOp op s)

end Mnet32

namespace Mnet32

/-- Claim C4: the expired AP shutdown timer callback issues the STOP
command exactly when the status is idle; otherwise it performs no action
at all, and it never re-arms the timer itself. -/
theorem c4_ap_timer_callback (s : Mnet32State) :
    ((wifi_ap_timed_shutdown s).notified = some Notification.cmdNetworkingStop ↔
      s.status = Status.idle) ∧
    (s.status ≠ Status.idle →
      wifi_ap_timed_shutdown s =
        { timer_stopped := false, timer_deleted := false, notified := none
          timer_restarted := false }) ∧
    (wifi_ap_timed_shutdown s).timer_restarted = false := by
  unfold wifi_ap_timed_shutdown mnet32_state_is_status_idle
  by_cases h : s.status = Status.idle <;> simp [h]

/-- Witness for C4 at a busy access point. -/
theorem c4_ap_timer_callback_witness :
    wifi_ap_timed_shutdown { mnet32_state_init with status := Status.busy } =
      { timer_stopped := false, timer_deleted := false, notified := none
        timer_restarted := false } :=
  (c4_ap_timer_callback { mnet32_state_init with status := Status.busy }).2.1 (by decide)

/-- Claim C7: the form decoder extracts and percent-decodes the example
body correctly, and a percent sign not followed by two hexadecimal digits
is kept literally. -/
theorem c7_web_get_value_decoding :
    mnet32_web_get_value "ssid" "ssid=My%20Network&psk=secret123" = some "My Network" ∧
    mnet32_web_get_value "psk" "ssid=My%20Network&psk=secret123" = some "secret123" ∧
    (∀ (c1 c2 : Char) (rest : List Char),
      ¬(isxdigit c1 = true ∧ isxdigit c2 = true) →
      urldecode ('%' :: c1 :: c2 :: rest) = '%' :: urldecode (c1 :: c2 :: rest)) ∧
    (∀ c1 : Char, urldecode ['%', c1] = '%' :: urldecode [c1]) ∧
    urldecode ['%'] = ['%'] := by
  refine ⟨by decide, by decide, ?_, ?_, rfl⟩
  · intro c1 c2 rest h
    have hb : ¬((isxdigit c1 && isxdigit c2) = true) := by
      simpa [Bool.and_eq_true] using h
    simp [urldecode, hb]
  · intro c1
    rfl

/-- Witness for C7 on a malformed escape. -/
theorem c7_web_get_value_decoding_witness :
    urldecode ('%' :: 'z' :: '0' :: []) = '%' :: urldecode ('z' :: '0' :: []) :=
  c7_web_get_value_decoding.2.2.1 'z' '0' [] (by decide)

/-- Claim C8 (code bug): the access-point configuration carries the fixed
SSID, channel and client limit, but the open-network fallback triggers
for every PSK of length at most eight, not only below eight: a PSK of
exactly eight characters is switched to an open network although the
adjacent code comment and the spec require a fallback only below eight. -/
theorem c8_ap_config_psk_boundary :
    (wifi_ap_build_config "12345678").authmode = Authmode.authOpen ∧
    (wifi_ap_build_config "12345678").password = "" ∧
    ¬("12345678".length < 8) ∧
    (wifi_ap_build_config MNET32_WIFI_AP_PSK).ssid = "krachkiste_ap" ∧
    (wifi_ap_build_config MNET32_WIFI_AP_PSK).channel = 5 ∧
    (wifi_ap_build_config MNET32_WIFI_AP_PSK).max_connection = 3 ∧
    (wifi_ap_build_config MNET32_WIFI_AP_PSK).authmode = Authmode.authOpen ∧
    (∀ psk : String, (wifi_ap_build_config psk).authmode = Authmode.authOpen ↔ psk.length ≤ 8) := by
  refine ⟨by decide, by decide, by decide, by decide, by decide, by decide, by decide, ?_⟩
  intro psk
  unfold wifi_ap_build_config
  by_cases h : psk.length ≤ 8 <;> simp [h]

/-- Claim C9: a failing station-list query makes the helper return `-1`
and the disconnect handler leave the state and timer untouched; the timer
is restarted (and the status set to idle) exactly when the query succeeds
reporting zero stations. -/
theorem c9_ap_stadisconnected_error (sta_list : Option Nat) (s : Mnet32State) :
    mnet32_wifi_ap_get_connected_stations none = -1 ∧
    (sta_list = none → mnet32_task_ap_stadisconnected sta_list s = (s, false)) ∧
    ((mnet32_task_ap_stadisconnected sta_list s).2 = true ↔ sta_list = some 0) ∧
    (sta_list = some 0 →
      (mnet32_task_ap_stadisconnected sta_list s).1 = mnet32_state_set_status_idle s) := by
  refine ⟨rfl, ?_, ?_, ?_⟩
  · rintro rfl
    simp [mnet32_task_ap_stadisconnected, mnet32_wifi_ap_get_connected_stations]
  · cases sta_list with
    | none => simp [mnet32_task_ap_stadisconnected, mnet32_wifi_ap_get_connected_stations]
    | some n =>
      simp [mnet32_task_ap_stadisconnected, mnet32_wifi_ap_get_connected_stations]
      by_cases h : n = 0 <;> simp [h]
  · rintro rfl
    simp [mnet32_task_ap_stadisconnected, mnet32_wifi_ap_get_connected_stations]

/-- Witness for C9 at a failed query. -/
theorem c9_ap_stadisconnected_error_witness :
    mnet32_task_ap_stadisconnected none mnet32_state_init = (mnet32_state_init, false) :=
  (c9_ap_stadisconnected_error none mnet32_state_init).2.1 rfl

end Mnet32

namespace Mnet32

/-- Claim C10: when the mode is already set to access point or station, a
further WiFi start returns success immediately and leaves the whole
connection state record unchanged. -/
theorem c10_wifi_start_frame (env : WifiInitEnv) (s : Mnet32State)
    (h : s.mode = Mode.wifiAp ∨ s.mode = Mode.wifiSta) :
    wifi_init env s = (ESP_OK, s) ∧ mnet32_wifi_start env s = (ESP_OK, s) := by
  have hset : mnet32_state_is_mode_set s = true := by
    rcases h with h | h <;> simp [mnet32_state_is_mode_set, h]
  have hinit : wifi_init env s = (ESP_OK, s) := by
    simp [wifi_init, hset]
  refine ⟨hinit, ?_⟩
  simp [mnet32_wifi_start, hinit]

/-- Witness for C10 with the mode set to access point. -/
theorem c10_wifi_start_frame_witness :
    wifi_init
        ⟨ESP_OK, ESP_OK, 7, none, ⟨some 1, ESP_OK, ESP_OK, ESP_OK⟩,
          ⟨some 1, some 2, ESP_OK, ESP_OK, ESP_OK⟩⟩
        { mnet32_state_init with mode := Mode.wifiAp } =
      (ESP_OK, { mnet32_state_init with mode := Mode.wifiAp }) :=
  (c10_wifi_start_frame _ _ (Or.inl rfl)).1

/-- Claim C2 (code bug): the NVS credential read is stubbed out and
unconditionally fails, so for a controller in uninitialized mode the
WIFI_START path always takes the access-point branch of `wifi_init`:
station initialization is never attempted, whatever credentials the
store holds. -/
theorem c2_station_never_attempted (env : WifiInitEnv) (s : Mnet32State)
    (h : s.mode = Mode.notApplicable) :
    wifi_get_config_from_nvs env.nvs_store = ESP_FAIL ∧
    (wifi_init env s).2.mode ≠ Mode.wifiSta := by
  refine ⟨rfl, ?_⟩
  have hset : mnet32_state_is_mode_set s = false := by
    simp [mnet32_state_is_mode_set, h]
  unfold wifi_init mnet32_wifi_ap_init
  simp only [hset, wifi_get_config_from_nvs, mnet32_state_is_interface_set,
    ESP_FAIL, ESP_OK, Bool.false_eq_true, if_false]
  split_ifs <;> first | omega | simp [h]

/-- Witness for C2 with credentials present in the store. -/
theorem c2_station_never_attempted_witness :
    wifi_get_config_from_nvs (some ("WiFi_SSID", "WiFi_PSK")) = ESP_FAIL ∧
    (wifi_init
        ⟨ESP_OK, ESP_OK, 7, some ("WiFi_SSID", "WiFi_PSK"),
          ⟨some 1, ESP_OK, ESP_OK, ESP_OK⟩,
          ⟨some 1, some 2, ESP_OK, ESP_OK, ESP_OK⟩⟩
        mnet32_state_init).2.mode ≠ Mode.wifiSta :=
  c2_station_never_attempted
    ⟨ESP_OK, ESP_OK, 7, some ("WiFi_SSID", "WiFi_PSK"),
      ⟨some 1, ESP_OK, ESP_OK, ESP_OK⟩,
      ⟨some 1, some 2, ESP_OK, ESP_OK, ESP_OK⟩⟩
    mnet32_state_init rfl

/-- Counterexample for claim C5: with the component already stopped (the
global state pointer NULL), `mnet32_stop` does not return the claimed
"not initialized" failure code; it dereferences the NULL state record
inside `mnet32_state_get_task_handle` (modelled by `none`), so the call
is not a crash-free no-op. -/
theorem c5_stop_when_stopped_counterexample : mnet32_stop none = none := rfl

/-- Claim C5 as amended: `mnet32_stop` performs no initialization check:
when the state record exists it always returns `ESP_OK` after notifying
STOP, and when the component is already stopped it dereferences the NULL
state record; the defined "not initialized" failure (`ESP_FAIL`) is
produced by `mnet32_deinit`, which leaves the (absent) state untouched. -/
theorem c5_stop_when_stopped_amended :
    mnet32_stop none = none ∧
    (∀ st : Mnet32State,
      mnet32_stop (some st) = some (ESP_OK, Notification.cmdNetworkingStop)) ∧
    mnet32_deinit none = (ESP_FAIL, none) :=
  ⟨rfl, fun _ => rfl, rfl⟩

end Mnet32

namespace Mnet32

/-- Counterexample for claim C6: on a fully received body with all store
writes succeeding, the handler sets the status line `204 No Response`,
not the claimed `204 No Content` (while it does notify WIFI_RESTART). -/
theorem c6_config_post_counterexample :
    (mnet32_web_handler_config_post
        ⟨.ok "ssid=a&psk=b", ESP_OK, ESP_OK, ESP_OK⟩).response_status =
      some "204 No Response" ∧
    (mnet32_web_handler_config_post
        ⟨.ok "ssid=a&psk=b", ESP_OK, ESP_OK, ESP_OK⟩).response_status ≠
      some "204 No Content" ∧
    (mnet32_web_handler_config_post
        ⟨.ok "ssid=a&psk=b", ESP_OK, ESP_OK, ESP_OK⟩).notified =
      some Notification.cmdWifiRestart := by
  refine ⟨by decide, by decide, by decide⟩

/-- Claim C6 as amended: on a fully received body, a successful store
write of both decoded values notifies WIFI_RESTART and sets the status
line `204 No Response` (HTTP 204, with this nonstandard reason phrase
instead of `204 No Content`); a failing store write answers
`500 Internal Server Error` with a plain-text body and no notification;
a receive timeout answers 408 and writes nothing to the store. -/
theorem c6_config_post_behaviour (env : PostEnv) (body : String) :
    (env.recv = RecvOutcome.ok body → env.nvs_handle_ret = ESP_OK →
      env.write_ssid_ret = ESP_OK → env.write_psk_ret = ESP_OK →
      (mnet32_web_handler_config_post env).notified = some Notification.cmdWifiRestart ∧
      (mnet32_web_handler_config_post env).response_status = some "204 No Response" ∧
      (mnet32_web_handler_config_post env).nvs_writes =
        [(MNET32_WIFI_NVS_SSID, (mnet32_web_get_value "ssid" body).getD ""),
         (MNET32_WIFI_NVS_PSK, (mnet32_web_get_value "psk" body).getD "")]) ∧
    (env.recv = RecvOutcome.ok body →
      (env.nvs_handle_ret ≠ ESP_OK ∨ env.write_ssid_ret ≠ ESP_OK ∨
        env.write_psk_ret ≠ ESP_OK) →
      (mnet32_web_handler_config_post env).response_status =
        some "500 Internal Server Error" ∧
      (mnet32_web_handler_config_post env).response_body =
        some "Could not write to storage" ∧
      (mnet32_web_handler_config_post env).notified = none) ∧
    (env.recv = RecvOutcome.timeout →
      mnet32_web_handler_config_post env =
        { ret := ESP_FAIL, response_status := none, response_body := none
          sent_408 := true, notified := none, nvs_writes := [] }) := by
  refine ⟨?_, ?_, ?_⟩
  · intro hrecv h1 h2 h3
    simp [mnet32_web_handler_config_post, hrecv, mnet32_web_write_config_to_nvs,
      h1, h2, h3]
  · intro hrecv hfail
    have hw : (mnet32_web_write_config_to_nvs env
        ((mnet32_web_get_value "ssid" body).getD "")
        ((mnet32_web_get_value "psk" body).getD "")).1 ≠ ESP_OK := by
      unfold mnet32_web_write_config_to_nvs
      rcases hfail with h | h | h <;> split_ifs <;> simp_all
    simp [mnet32_web_handler_config_post, hrecv, hw]
  · intro hrecv
    simp [mnet32_web_handler_config_post, hrecv]

/-- Witness for C6: one successful submission and one timed-out one. -/
theorem c6_config_post_behaviour_witness :
    (mnet32_web_handler_config_post
        ⟨.ok "ssid=x&psk=y", ESP_OK, ESP_OK, ESP_OK⟩).notified =
      some Notification.cmdWifiRestart ∧
    mnet32_web_handler_config_post ⟨.timeout, ESP_OK, ESP_OK, ESP_OK⟩ =
      { ret := ESP_FAIL, response_status := none, response_body := none
        sent_408 := true, notified := none, nvs_writes := [] } :=
  ⟨((c6_config_post_behaviour ⟨.ok "ssid=x&psk=y", ESP_OK, ESP_OK, ESP_OK⟩
      "ssid=x&psk=y").1 rfl rfl rfl rfl).1,
   (c6_config_post_behaviour ⟨.timeout, ESP_OK, ESP_OK, ESP_OK⟩ "").2.2 rfl⟩

end Mnet32

namespace Mnet32

/-- Helper for C3: one init or deinit operation preserves the invariant
that a NULL mode-specific extension implies an unset mode and a NULL
interface. -/
theorem applyWifiOp_medium_state_inv (op : WifiOp) (s : Mnet32State)
    (hs : s.medium_state = none → s.mode = Mode.notApplicable ∧ s.interface = none) :
    (applyWifiOp op s).medium_state = none →
      (applyWifiOp op s).mode = Mode.notApplicable ∧
      (applyWifiOp op s).interface = none := by
  cases op with
  | apInit env =>
    simp only [applyWifiOp, mnet32_wifi_ap_init, mnet32_state_is_interface_set]
    split_ifs <;> intro h <;> simp_all
  | apDeinit =>
    simp only [applyWifiOp, wifi_ap_deinit, mnet32_state_is_medium_state_initd]
    split_ifs <;> intro h <;> simp_all
  | staInit env =>
    simp only [applyWifiOp, wifi_sta_init, mnet32_state_is_interface_set]
    split_ifs <;> intro h <;> simp_all
  | staDeinit =>
    simp only [applyWifiOp, mnet32_wifi_sta_deinit, mnet32_state_is_medium_state_initd]
    split_ifs <;> intro h <;> simp_all

/-- Helper for C3: the invariant holds after any operation sequence from
an invariant-satisfying start state. -/
theorem runWifiOps_medium_state_inv (ops : List WifiOp) (s : Mnet32State)
    (hs : s.medium_state = none → s.mode = Mode.notApplicable ∧ s.interface = none) :
    (runWifiOps ops s).medium_state = none →
      (runWifiOps ops s).mode = Mode.notApplicable ∧
      (runWifiOps ops s).interface = none := by
  induction ops generalizing s with
  | nil => simpa [runWifiOps] using hs
  | cons op rest ih =>
    simpa [runWifiOps] using ih (applyWifiOp op s) (applyWifiOp_medium_state_inv op s hs)

/-- Counterexample for claim C3: an access-point initialization failing
at `esp_wifi_set_mode` leaves the mode NotApplicable with a non-null
interface and a non-null extension, so the claimed three-way equivalence
fails; a subsequent initialization whose interface creation fails leaves
the interface NULL with mode AccessPoint and a non-null extension,
refuting the remaining directions as well. -/
theorem c3_invariant_counterexample :
    ¬((runWifiOps [WifiOp.apInit ⟨some 1, some 2, ESP_FAIL, ESP_OK, ESP_OK⟩]
        mnet32_state_init).mode = Mode.notApplicable ↔
      (runWifiOps [WifiOp.apInit ⟨some 1, some 2, ESP_FAIL, ESP_OK, ESP_OK⟩]
        mnet32_state_init).interface = none) ∧
    (runWifiOps [WifiOp.apInit ⟨some 1, some 2, ESP_FAIL, ESP_OK, ESP_OK⟩]
        mnet32_state_init).medium_state ≠ none ∧
    (runWifiOps [WifiOp.apInit ⟨some 1, some 2, ESP_OK, ESP_OK, ESP_OK⟩,
        WifiOp.apInit ⟨none, some 2, ESP_OK, ESP_OK, ESP_OK⟩]
        mnet32_state_init).mode = Mode.wifiAp ∧
    (runWifiOps [WifiOp.apInit ⟨some 1, some 2, ESP_OK, ESP_OK, ESP_OK⟩,
        WifiOp.apInit ⟨none, some 2, ESP_OK, ESP_OK, ESP_OK⟩]
        mnet32_state_init).interface = none ∧
    (runWifiOps [WifiOp.apInit ⟨some 1, some 2, ESP_OK, ESP_OK, ESP_OK⟩,
        WifiOp.apInit ⟨none, some 2, ESP_OK, ESP_OK, ESP_OK⟩]
        mnet32_state_init).medium_state ≠ none := by
  decide

/-- Claim C3 as amended: for every state reachable by sequences of the
four init/deinit operations (with arbitrary external-call failures), a
NULL mode-specific extension implies mode NotApplicable and a NULL
interface. The other directions of the claimed equivalence fail on
partially failed initializations (see the counterexample). -/
theorem c3_reachable_medium_state_inv (ops : List WifiOp)
    (h : (runWifiOps ops mnet32_state_init).medium_state = none) :
    (runWifiOps ops mnet32_state_init).mode = Mode.notApplicable ∧
    (runWifiOps ops mnet32_state_init).interface = none :=
  runWifiOps_medium_state_inv ops mnet32_state_init (fun _ => ⟨rfl, rfl⟩) h

/-- Witness for C3 after a deinit of a never-initialized state. -/
theorem c3_reachable_medium_state_inv_witness :
    (runWifiOps [WifiOp.apDeinit] mnet32_state_init).mode = Mode.notApplicable ∧
    (runWifiOps [WifiOp.apDeinit] mnet32_state_init).interface = none :=
  c3_reachable_medium_state_inv [WifiOp.apDeinit] (by decide)

end Mnet32

namespace Mnet32

/-- Helper for C1: full characterization of the disconnect run. Starting
in station mode with attempt counter `m` (at most 4), feeding `k`
disconnect notifications issues exactly `min k (4 - m)` connect calls,
and the access-point fallback runs exactly when `5 - m` or more
notifications arrive. -/
theorem staDisconnectRun_characterization (env : ApInitEnv) (k : Nat) :
    ∀ (m : Nat) (s : Mnet32State), m ≤ 4 →
      s.medium_state = some (MediumState.sta (m : Int)) →
      ∃ s2 fb, staDisconnectRun env k s = some (s2, Nat.min k (4 - m), fb) ∧
        (fb = true ↔ 5 ≤ k + m) := by
  induction k with
  | zero =>
    intro m s hm hs
    refine ⟨s, false, by simp [staDisconnectRun], ?_⟩
    simp only [Bool.false_eq_true, false_iff]
    omega
  | succ k ih =>
    intro m s hm hs
    by_cases h4 : m = 4
    · subst h4
      have hgt : ((4 : Nat) : Int) > MNET32_WIFI_STA_MAX_CONNECTION_ATTEMPTS := by
        norm_num [MNET32_WIFI_STA_MAX_CONNECTION_ATTEMPTS]
      refine ⟨(mnet32_wifi_ap_init env (mnet32_wifi_sta_deinit s).2).2, true, ?_, ?_⟩
      · simp only [staDisconnectRun, mnet32_task_sta_disconnected,
          mnet32_wifi_sta_get_num_connection_attempts, hs,
          MNET32_WIFI_STA_MAX_CONNECTION_ATTEMPTS]
        norm_num
      · refine iff_of_true rfl ?_
        omega
    · have hlt : ¬((m : Int) > MNET32_WIFI_STA_MAX_CONNECTION_ATTEMPTS) := by
        have : m ≤ 3 := by omega
        simp only [MNET32_WIFI_STA_MAX_CONNECTION_ATTEMPTS]
        omega
      have hcast : ((m : Int) + 1) = ((m + 1 : Nat) : Int) := by omega
      obtain ⟨s2, fb, hrun, hfb⟩ :=
        ih (m + 1) { s with medium_state := some (.sta ((m + 1 : Nat) : Int)) }
          (by omega) rfl
      refine ⟨s2, fb, ?_, ?_⟩
      · simp only [staDisconnectRun, mnet32_task_sta_disconnected,
          mnet32_wifi_sta_get_num_connection_attempts, hs, mnet32_wifi_sta_connect]
        rw [if_neg hlt]
        simp only [hcast]
        simp only [hrun]
        have hm3 : m ≤ 3 := by omega
        have hmin : Nat.min (k + 1) (4 - m) = 1 + Nat.min k (4 - (m + 1)) := by
          simp only [Nat.min_def]
          split_ifs <;> omega
        simp [hmin]
      · rw [hfb]
        constructor <;> intro <;> omega
end Mnet32

namespace Mnet32

/-- Claim C1: starting after station initialization (attempt counter 0),
any sequence of STA_DISCONNECTED notifications makes the controller issue
at most `MNET32_WIFI_STA_MAX_CONNECTION_ATTEMPTS + 1 = 4` calls to
`mnet32_wifi_sta_connect` (which pre-increments the counter) before the
fallback deinitializes station mode and initializes the access point,
and any single notification takes the fallback exactly when the attempt
counter exceeds the maximum. -/
theorem c1_station_retry_bound (env : ApInitEnv) (k : Nat) (s : Mnet32State)
    (h : s.medium_state = some (MediumState.sta 0)) :
    (∃ s2 c fb, staDisconnectRun env k s = some (s2, c, fb) ∧
      c ≤ MNET32_WIFI_STA_MAX_CONNECTION_ATTEMPTS.toNat + 1 ∧
      (fb = true ↔ MNET32_WIFI_STA_MAX_CONNECTION_ATTEMPTS.toNat + 2 ≤ k)) ∧
    (∀ (s1 : Mnet32State) (m : Int),
      s1.medium_state = some (MediumState.sta m) →
      (mnet32_task_sta_disconnected env s1).map (fun o => o.fell_back) =
        some (decide (m > MNET32_WIFI_STA_MAX_CONNECTION_ATTEMPTS))) := by
  constructor
  · obtain ⟨s2, fb, hrun, hfb⟩ :=
      staDisconnectRun_characterization env k 0 s (by omega) (by simpa using h)
    refine ⟨s2, Nat.min k (4 - 0), fb, hrun, ?_, ?_⟩
    · have h4 : MNET32_WIFI_STA_MAX_CONNECTION_ATTEMPTS.toNat + 1 = 4 := rfl
      rw [h4]
      simp only [Nat.min_def]
      split_ifs <;> omega
    · rw [hfb]
      have h5 : MNET32_WIFI_STA_MAX_CONNECTION_ATTEMPTS.toNat + 2 = 5 := rfl
      rw [h5]
      constructor <;> intro <;> omega
  · intro s1 m hm1
    by_cases hgt : m > MNET32_WIFI_STA_MAX_CONNECTION_ATTEMPTS
    · simp [mnet32_task_sta_disconnected,
        mnet32_wifi_sta_get_num_connection_attempts, hm1, hgt]
    · simp [mnet32_task_sta_disconnected,
        mnet32_wifi_sta_get_num_connection_attempts, mnet32_wifi_sta_connect,
        hm1, hgt]

/-- Witness for C1: six disconnect notifications from a fresh station
state. -/
theorem c1_station_retry_bound_witness :
    ∃ s2 c fb,
      staDisconnectRun ⟨some 1, some 2, ESP_OK, ESP_OK, ESP_OK⟩ 6
          { mnet32_state_init with medium_state := some (MediumState.sta 0) } =
        some (s2, c, fb) ∧
      c ≤ MNET32_WIFI_STA_MAX_CONNECTION_ATTEMPTS.toNat + 1 ∧
      (fb = true ↔ MNET32_WIFI_STA_MAX_CONNECTION_ATTEMPTS.toNat + 2 ≤ 6) :=
  (c1_station_retry_bound ⟨some 1, some 2, ESP_OK, ESP_OK, ESP_OK⟩ 6
    { mnet32_state_init with medium_state := some (MediumState.sta 0) } rfl).1

end Mnet32
